import Mathlib

/-!
Shallow embedding of `miio/airfresh_t2017.py` (python-mirobo): a device
client for the `dmaker.airfresh.t2017` air fresh unit.  The transport
(`Device.send`) is external; device methods are embedded as programs in a
small effect language `Prog` whose single effect is one transport call,
so that the calls a method issues and the value it returns are both
observable.  Raw property values are booleans, integers or strings.
-/

/-- A raw property value as returned by the device transport
(`true`/`false`, numbers, or wire strings in the example payload of
`AirFreshStatus.__init__`, lines 66-92). -/
inductive Value where
  | bool (b : Bool)
  | int (n : Int)
  | str (s : String)
deriving DecidableEq, Repr

/-- `MODEL_AIRFRESH_T2017` (line 13). -/
def MODEL_AIRFRESH_T2017 : String := "dmaker.airfresh.t2017"

/-- The ordered property list of the t2017 model (lines 16-35). -/
def t2017Properties : List String :=
  ["power", "mode", "pm25", "co2", "temperature_outside", "favourite_speed",
   "control_speed", "filter_intermediate", "filter_inter_day",
   "filter_efficient", "filter_effi_day", "ptc_on", "ptc_level",
   "ptc_status", "child_lock", "sound", "display", "screen_direction"]

/-- `AVAILABLE_PROPERTIES` (lines 15-36), a dict keyed by model, embedded
as an association list. -/
def AVAILABLE_PROPERTIES : List (String × List String) :=
  [(MODEL_AIRFRESH_T2017, t2017Properties)]

/-- Dict lookup `AVAILABLE_PROPERTIES[m]`, with a missing key embedded as
`none` (a `KeyError` in Python). -/
def lookupProperties (m : String) : Option (List String) :=
  (AVAILABLE_PROPERTIES.find? (fun p => p.1 == m)).map Prod.snd

/-- `OperationMode` (lines 43-47): a closed enumeration with a string
wire value per member. -/
inductive OperationMode where
  | Off
  | Auto
  | Sleep
  | Favorite
deriving DecidableEq, Repr

/-- The wire value (`.value` in Python) of each `OperationMode` member
(lines 44-47). -/
def OperationMode.value : OperationMode → String
  | .Off => "off"
  | .Auto => "auto"
  | .Sleep => "sleep"
  | .Favorite => "favourite"

/-- All members of `OperationMode`, in declaration order. -/
def OperationMode.members : List OperationMode :=
  [.Off, .Auto, .Sleep, .Favorite]

/-- The Python enum value-lookup `OperationMode(s)`: the member whose wire
value is `s`, or a `ValueError` (`Except.error`) when no member matches. -/
def OperationMode.ofValue (s : String) : Except String OperationMode :=
  if s = "off" then .ok .Off
  else if s = "auto" then .ok .Auto
  else if s = "sleep" then .ok .Sleep
  else if s = "favourite" then .ok .Favorite
  else .error s

/-- `PtcLevel` (lines 50-54). -/
inductive PtcLevel where
  | Off
  | Low
  | Medium
  | High
deriving DecidableEq, Repr

/-- The wire value of each `PtcLevel` member (lines 51-54). -/
def PtcLevel.value : PtcLevel → String
  | .Off => "off"
  | .Low => "low"
  | .Medium => "medium"
  | .High => "high"

/-- All members of `PtcLevel`, in declaration order. -/
def PtcLevel.members : List PtcLevel :=
  [.Off, .Low, .Medium, .High]

/-- The Python enum value-lookup `PtcLevel(s)`. -/
def PtcLevel.ofValue (s : String) : Except String PtcLevel :=
  if s = "off" then .ok .Off
  else if s = "low" then .ok .Low
  else if s = "medium" then .ok .Medium
  else if s = "high" then .ok .High
  else .error s

/-- `ScreenOrientation` (lines 57-60). -/
inductive ScreenOrientation where
  | Portrait
  | LandscapeLeft
  | LandscapeRight
deriving DecidableEq, Repr

/-- The wire value of each `ScreenOrientation` member (lines 58-60). -/
def ScreenOrientation.value : ScreenOrientation → String
  | .Portrait => "forward"
  | .LandscapeLeft => "left"
  | .LandscapeRight => "right"

/-- All members of `ScreenOrientation`, in declaration order. -/
def ScreenOrientation.members : List ScreenOrientation :=
  [.Portrait, .LandscapeLeft, .LandscapeRight]

/-- The Python enum value-lookup `ScreenOrientation(s)`. -/
def ScreenOrientation.ofValue (s : String) : Except String ScreenOrientation :=
  if s = "forward" then .ok .Portrait
  else if s = "left" then .ok .LandscapeLeft
  else if s = "right" then .ok .LandscapeRight
  else .error s

/-- `AirFreshStatus` (lines 63-92): wraps the raw data dict.  The dict is
embedded as the association list the snapshot was built from. -/
structure AirFreshStatus where
  data : List (String × Value)
deriving DecidableEq, Repr

/-- Lookup `self.data[key]` on the `defaultdict(lambda: None, ...)` built
by `status` (line 301): the value of the last binding of `key` (Python
dict semantics: later duplicate keys win), and the default `None`
(embedded as `none`, the unknown sentinel) when `key` is absent.  The
lookup is total: it never fails. -/
def AirFreshStatus.get (s : AirFreshStatus) (key : String) : Option Value :=
  (s.data.reverse.find? (fun p => p.1 == key)).map Prod.snd

/-- `AirFreshStatus.mode` (lines 104-107): `OperationMode(self.data["mode"])`.
A missing or non-string raw value raises `ValueError` in Python, embedded
as `Except.error`. -/
def AirFreshStatus.mode (s : AirFreshStatus) : Except String OperationMode :=
  match s.get "mode" with
  | some (Value.str v) => OperationMode.ofValue v
  | _ => Except.error "not a valid OperationMode"

/-- A device method as a program over the transport effect: `ret` is a
plain return, `call m p k` performs `self.send(m, p)` (line 288 etc.) and
continues with the returned value list. -/
inductive Prog (α : Type) where
  | ret (a : α)
  | call (method : String) (params : List String) (k : List Value → Prog α)

/-- Sequencing of transport programs. -/
def Prog.bind {α β : Type} : Prog α → (α → Prog β) → Prog β
  | .ret a, f => f a
  | .call m p k, f => .call m p (fun vs => (k vs).bind f)

/-- Run a program against a transport oracle `oracle method params`,
returning the list of calls issued, in order, and the final result. -/
def Prog.run {α : Type} (oracle : String → List String → List Value) :
    Prog α → List (String × List String) × α
  | .ret a => ([], a)
  | .call m p k =>
      let r := Prog.run oracle (k (oracle m p))
      ((m, p) :: r.1, r.2)

theorem Prog.run_bind {α β : Type} (oracle : String → List String → List Value)
    (p : Prog α) (f : α → Prog β) :
    Prog.run oracle (p.bind f) =
      ((Prog.run oracle p).1 ++ (Prog.run oracle (f (Prog.run oracle p).2)).1,
       (Prog.run oracle (f (Prog.run oracle p).2)).2) := by
  induction p with
  | ret a => simp [Prog.bind, Prog.run]
  | call m prm k ih => simp [Prog.bind, Prog.run, ih]

/-- The chunks the `while _props:` loop of `status` (lines 287-289) sends:
consecutive slices `_props[:15]` of the remaining list, until it is
empty. -/
def chunks : List String → List (List String)
  | [] => []
  | a :: rest => ((a :: rest).take 15) :: chunks ((a :: rest).drop 15)
termination_by l => l.length
decreasing_by
  simp only [List.length_drop, List.length_cons]
  omega

/-- The `while _props:` loop of `status` (lines 285-289) as a transport
program: each iteration sends `get_prop` with `_props[:15]` and extends
`values` with the returned list, then drops the sent names. -/
def statusFetch : List String → Prog (List Value)
  | [] => .ret []
  | a :: rest =>
      .call "get_prop" ((a :: rest).take 15) (fun vs =>
        (statusFetch ((a :: rest).drop 15)).bind (fun more => .ret (vs ++ more)))
termination_by l => l.length
decreasing_by
  simp only [List.length_drop, List.length_cons]
  omega

/-- Line 301: `AirFreshStatus(defaultdict(lambda: None, zip(properties, values)))`.
Python `zip` truncates to the shorter sequence, as `List.zip` does. -/
def buildSnapshot (properties : List String) (values : List Value) : AirFreshStatus :=
  ⟨properties.zip values⟩

/-- `AirFreshT2017.status` given the model's property list (lines 278-301):
fetch the values chunk by chunk, compare the counts (the Boolean records
whether the mismatch diagnostic of lines 293-299 is logged; nothing is
raised), and build the snapshot by positional zipping. -/
def statusWith (properties : List String) : Prog (Bool × AirFreshStatus) :=
  (statusFetch properties).bind (fun values =>
    .ret (properties.length != values.length, buildSnapshot properties values))

/-- `AirFreshT2017` device object: only the stored model matters here. -/
structure AirFreshT2017 where
  model : String
deriving DecidableEq, Repr

/-- `AirFreshT2017.__init__` (lines 239-253): keep `model` when it is a
key of `AVAILABLE_PROPERTIES`, otherwise fall back to
`MODEL_AIRFRESH_T2017`. -/
def AirFreshT2017.init (model : String) : AirFreshT2017 :=
  if (lookupProperties model).isSome then ⟨model⟩ else ⟨MODEL_AIRFRESH_T2017⟩

/-- `AirFreshT2017.status` (lines 278-301): look the property list up in
`AVAILABLE_PROPERTIES` (`none` embeds the `KeyError` on a missing model)
and run the chunked fetch. -/
def AirFreshT2017.status (d : AirFreshT2017) : Option (Prog (Bool × AirFreshStatus)) :=
  (lookupProperties d.model).map statusWith

/-- `AirFreshT2017.on` (lines 303-306): `self.send("set_power", ["on"])`. -/
def AirFreshT2017.on : Prog (List Value) :=
  .call "set_power" ["on"] .ret

/-- `AirFreshT2017.off` (lines 308-311): `self.send("set_power", ["off"])`. -/
def AirFreshT2017.off : Prog (List Value) :=
  .call "set_power" ["off"] .ret

/-- `AirFreshT2017.set_mode` (lines 313-319): `self.send("set_mode", [mode.value])`. -/
def AirFreshT2017.set_mode (mode : OperationMode) : Prog (List Value) :=
  .call "set_mode" [mode.value] .ret

/-- `AirFreshT2017.set_display` (lines 321-332). -/
def AirFreshT2017.set_display (display : Bool) : Prog (List Value) :=
  if display then .call "set_display" ["on"] .ret
  else .call "set_display" ["off"] .ret

/-- `AirFreshT2017.set_buzzer` (lines 334-345): sends `set_sound`. -/
def AirFreshT2017.set_buzzer (buzzer : Bool) : Prog (List Value) :=
  if buzzer then .call "set_sound" ["on"] .ret
  else .call "set_sound" ["off"] .ret

/-- `AirFreshT2017.set_child_lock` (lines 347-358). -/
def AirFreshT2017.set_child_lock (lock : Bool) : Prog (List Value) :=
  if lock then .call "set_child_lock" ["on"] .ret
  else .call "set_child_lock" ["off"] .ret

/-- `AirFreshT2017.reset_upper_filter` (lines 360-363). -/
def AirFreshT2017.reset_upper_filter : Prog (List Value) :=
  .call "set_filter_reset" ["efficient"] .ret

/-- `AirFreshT2017.reset_dust_filter` (lines 365-368). -/
def AirFreshT2017.reset_dust_filter : Prog (List Value) :=
  .call "set_filter_reset" ["intermediate"] .ret

/-- Modelled from the spec: the CLI argument conversion
`EnumType(OperationMode, False)` attached to `set_mode` (line 314) lives
in `click_common`, which is not part of the sources here.  Per the spec,
`setMode` "fails with InvalidArgument if mode not in enumeration": a wire
string is decoded to an `OperationMode` member first, and only a
successful decode produces the one-call `set_mode` program; an
unrecognized string is an `Except.error` holding no program at all, so no
transport call can be issued. -/
def setModeChecked (s : String) : Except String (Prog (List Value)) :=
  (OperationMode.ofValue s).map AirFreshT2017.set_mode

/-- The mutable state of the fetch loop in `status` (lines 281-289),
with Python's aliasing made explicit: `table` is the shared module-level
list `AVAILABLE_PROPERTIES[self.model]`, `props` is the local list
object `_props` that the slice assignment `_props[:] = _props[15:]`
(line 289) mutates in place, and `values` is the accumulator. -/
structure FetchState where
  table : List String
  props : List String
  values : List Value
deriving DecidableEq, Repr

/-- Line 285, `_props = properties.copy()`: the loop starts on a fresh
copy of the table, so `props` is a distinct list object initially equal
to `table`. -/
def fetchInit (table : List String) : FetchState :=
  ⟨table, table, []⟩

/-- One iteration of the `while _props:` body (lines 288-289):
`values.extend(self.send("get_prop", _props[:15]))` then
`_props[:] = _props[15:]`.  Only `props` and `values` change. -/
def fetchStep (oracle : String → List String → List Value)
    (s : FetchState) : FetchState :=
  ⟨s.table, s.props.drop 15, s.values ++ oracle "get_prop" (s.props.take 15)⟩

/-- The `while _props:` loop (lines 287-289) on the explicit state. -/
def fetchRun (oracle : String → List String → List Value) :
    FetchState → FetchState
  | ⟨table, [], values⟩ => ⟨table, [], values⟩
  | ⟨table, a :: rest, values⟩ =>
      fetchRun oracle (fetchStep oracle ⟨table, a :: rest, values⟩)
termination_by s => s.props.length
decreasing_by
  simp only [fetchStep, List.length_drop, List.length_cons]
  omega

theorem fetchRun_table (oracle : String → List String → List Value) :
    ∀ s : FetchState, (fetchRun oracle s).table = s.table
  | ⟨table, [], values⟩ => by rw [fetchRun]
  | ⟨table, a :: rest, values⟩ => by
      rw [fetchRun]
      exact fetchRun_table oracle (fetchStep oracle ⟨table, a :: rest, values⟩)
termination_by s => s.props.length
decreasing_by
  simp only [fetchStep, List.length_drop, List.length_cons]
  omega

theorem fetchRun_values (oracle : String → List String → List Value) :
    ∀ s : FetchState,
      (fetchRun oracle s).values =
        s.values ++ (Prog.run oracle (statusFetch s.props)).2
  | ⟨table, [], values⟩ => by
      rw [fetchRun, statusFetch]
      simp [Prog.run]
  | ⟨table, a :: rest, values⟩ => by
      rw [fetchRun, statusFetch]
      have ih := fetchRun_values oracle (fetchStep oracle ⟨table, a :: rest, values⟩)
      simp only [fetchStep] at ih ⊢
      rw [ih]
      simp [Prog.run, Prog.run_bind, List.append_assoc]
termination_by s => s.props.length
decreasing_by
  simp only [fetchStep, List.length_drop, List.length_cons]
  omega

theorem run_statusFetch (oracle : String → List String → List Value) :
    ∀ props : List String,
      Prog.run oracle (statusFetch props) =
        ((chunks props).map (fun c => ("get_prop", c)),
         ((chunks props).map (oracle "get_prop")).flatten)
  | [] => by rw [statusFetch, chunks]; simp [Prog.run]
  | a :: rest => by
      rw [statusFetch, chunks]
      have ih := run_statusFetch oracle ((a :: rest).drop 15)
      simp only [List.drop_succ_cons] at ih
      simp [Prog.run, Prog.run_bind, ih]
termination_by l => l.length
decreasing_by
  simp only [List.length_drop, List.length_cons]
  omega

theorem chunks_length : ∀ props : List String,
    (chunks props).length = (props.length + 14) / 15
  | [] => by rw [chunks]; rfl
  | a :: rest => by
      rw [chunks]
      have ih := chunks_length ((a :: rest).drop 15)
      simp only [List.length_cons, List.length_drop] at ih ⊢
      rw [ih]
      omega
termination_by l => l.length
decreasing_by
  simp only [List.length_drop, List.length_cons]
  omega

theorem chunks_le : ∀ props : List String, ∀ c ∈ chunks props, c.length ≤ 15
  | [], c, hc => by rw [chunks] at hc; simp at hc
  | a :: rest, c, hc => by
      rw [chunks] at hc
      rcases List.mem_cons.mp hc with h | h
      · subst h
        simp only [List.length_take]
        omega
      · exact chunks_le ((a :: rest).drop 15) c h
termination_by l => l.length
decreasing_by
  simp only [List.length_drop, List.length_cons]
  omega

theorem fst_mem_take {α β : Type} : ∀ (l₁ : List α) (l₂ : List β) (p : α × β),
    p ∈ l₁.zip l₂ → p.1 ∈ l₁.take l₂.length
  | [], _, p, h => by simp [List.zip] at h
  | _ :: _, [], p, h => by simp at h
  | a :: l₁, b :: l₂, p, h => by
      simp only [List.zip_cons_cons, List.mem_cons] at h
      rcases h with h | h
      · subst h; simp
      · simp only [List.length_cons, List.take_succ_cons, List.mem_cons]
        exact Or.inr (fst_mem_take l₁ l₂ p h)

theorem zip_take_length {α β : Type} : ∀ (l₁ : List α) (l₂ : List β),
    l₁.zip (l₂.take l₁.length) = l₁.zip l₂
  | [], _ => by simp
  | _ :: _, [] => by simp
  | a :: l₁, b :: l₂ => by
      simp only [List.length_cons, List.take_succ_cons, List.zip_cons_cons]
      rw [zip_take_length l₁ l₂]

/-- A transport oracle answering every request with the names themselves
as string values: one value per requested name. -/
def strOracle : String → List String → List Value :=
  fun _ c => c.map Value.str

/-- A transport oracle answering every request with an empty list. -/
def emptyOracle : String → List String → List Value :=
  fun _ _ => []

theorem run_statusFetch_emptyOracle (props : List String) :
    (Prog.run emptyOracle (statusFetch props)).2 = [] := by
  rw [run_statusFetch]
  simp [emptyOracle, List.flatten_eq_nil_iff]

theorem opMode_ofValue_value (m : OperationMode) :
    OperationMode.ofValue m.value = Except.ok m := by
  cases m <;> rfl

theorem opMode_ofValue_not_mem (s : String)
    (h : s ∉ OperationMode.members.map OperationMode.value) :
    OperationMode.ofValue s = Except.error s := by
  simp only [OperationMode.members, OperationMode.value, List.map_cons,
    List.map_nil, List.mem_cons, List.not_mem_nil, or_false, not_or] at h
  obtain ⟨h1, h2, h3, h4⟩ := h
  simp [OperationMode.ofValue, h1, h2, h3, h4]

theorem ptcLevel_ofValue_value (l : PtcLevel) :
    PtcLevel.ofValue l.value = Except.ok l := by
  cases l <;> rfl

theorem ptcLevel_ofValue_not_mem (s : String)
    (h : s ∉ PtcLevel.members.map PtcLevel.value) :
    PtcLevel.ofValue s = Except.error s := by
  simp only [PtcLevel.members, PtcLevel.value, List.map_cons,
    List.map_nil, List.mem_cons, List.not_mem_nil, or_false, not_or] at h
  obtain ⟨h1, h2, h3, h4⟩ := h
  simp [PtcLevel.ofValue, h1, h2, h3, h4]

theorem screenOrientation_ofValue_value (o : ScreenOrientation) :
    ScreenOrientation.ofValue o.value = Except.ok o := by
  cases o <;> rfl

theorem screenOrientation_ofValue_not_mem (s : String)
    (h : s ∉ ScreenOrientation.members.map ScreenOrientation.value) :
    ScreenOrientation.ofValue s = Except.error s := by
  simp only [ScreenOrientation.members, ScreenOrientation.value, List.map_cons,
    List.map_nil, List.mem_cons, List.not_mem_nil, or_false, not_or] at h
  obtain ⟨h1, h2, h3⟩ := h
  simp [ScreenOrientation.ofValue, h1, h2, h3]

theorem chunks_flatten : ∀ props : List String, (chunks props).flatten = props
  | [] => by rw [chunks]; rfl
  | a :: rest => by
      rw [chunks]
      have ih := chunks_flatten ((a :: rest).drop 15)
      simp only [List.drop_succ_cons] at ih
      simp [ih]
termination_by l => l.length
decreasing_by
  simp only [List.length_drop, List.length_cons]
  omega

/-- Claim C1: for every ordered property list of length L, the status
fetch splits it into consecutive chunks of at most 15 names, issues
exactly ceil(L/15) transport calls (one `get_prop` call per chunk, in
order), and — whenever each call returns one value per requested name —
the concatenation of the per-chunk result lists in chunk order is a
sequence of length L positionally aligned with the input names (the
value at position i is the oracle's answer for the name at position i). -/
theorem C1_chunked_fetch (props : List String)
    (oracle : String → List String → List Value) (f : String → Value)
    (hor : ∀ c : List String, oracle "get_prop" c = c.map f) :
    (Prog.run oracle (statusFetch props)).1 =
      (chunks props).map (fun c => ("get_prop", c)) ∧
    (∀ c ∈ chunks props, c.length ≤ 15) ∧
    (chunks props).flatten = props ∧
    (Prog.run oracle (statusFetch props)).1.length = (props.length + 14) / 15 ∧
    (Prog.run oracle (statusFetch props)).2 = props.map f := by
  have hrun := run_statusFetch oracle props
  refine ⟨by rw [hrun], chunks_le props, chunks_flatten props, ?_, ?_⟩
  · rw [hrun]
    simpa using chunks_length props
  · rw [hrun]
    have hmap : (chunks props).map (oracle "get_prop") =
        (chunks props).map (fun c => c.map f) :=
      List.map_congr_left (fun c _ => hor c)
    simp only [hmap]
    rw [← List.map_flatten, chunks_flatten]

theorem C1_chunked_fetch_witness :
    (∀ c : List String, strOracle "get_prop" c = c.map Value.str) ∧
    ((Prog.run strOracle (statusFetch t2017Properties)).1 =
      (chunks t2017Properties).map (fun c => ("get_prop", c)) ∧
    (∀ c ∈ chunks t2017Properties, c.length ≤ 15) ∧
    (chunks t2017Properties).flatten = t2017Properties ∧
    (Prog.run strOracle (statusFetch t2017Properties)).1.length =
      (t2017Properties.length + 14) / 15 ∧
    (Prog.run strOracle (statusFetch t2017Properties)).2 =
      t2017Properties.map Value.str) :=
  ⟨fun _ => rfl,
   C1_chunked_fetch t2017Properties strOracle Value.str (fun _ => rfl)⟩

/-- Claim C2: for every returned value list strictly shorter than the
requested (duplicate-free) name list, the snapshot built by the status
fetch yields the unknown sentinel (`none`, embedding the `defaultdict`
default `None`) for every name beyond the returned length; the lookup is
total (`AirFreshStatus.get` returns an `Option`), so it cannot raise. -/
theorem C2_short_result_sentinel (props : List String) (values : List Value)
    (hnd : props.Nodup) (hshort : values.length < props.length)
    (name : String) (hbeyond : name ∈ props.drop values.length) :
    (buildSnapshot props values).get name = none := by
  have hfind : ((props.zip values).reverse.find? (fun p => p.1 == name)) = none := by
    rw [List.find?_eq_none]
    intro p hp hbeq
    have hp' : p ∈ props.zip values := List.mem_reverse.mp hp
    have h1 : p.1 ∈ props.take values.length := fst_mem_take props values p hp'
    have hname : p.1 = name := by simpa using hbeq
    rw [← List.take_append_drop values.length props] at hnd
    have hdisj := (List.nodup_append.mp hnd).2.2
    exact hdisj (hname ▸ h1) hbeyond
  simp [buildSnapshot, AirFreshStatus.get, hfind]

theorem C2_short_result_sentinel_witness :
    (t2017Properties.Nodup ∧
      ([] : List Value).length < t2017Properties.length ∧
      "power" ∈ t2017Properties.drop ([] : List Value).length) ∧
    (buildSnapshot t2017Properties []).get "power" = none :=
  ⟨⟨by decide, by decide, by decide⟩,
   C2_short_result_sentinel t2017Properties [] (by decide) (by decide)
     "power" (by decide)⟩

/-- Claim C3: whenever the total count of fetched values differs from the
count of requested names, `status` does not fail: the mismatch only sets
the logged-diagnostic flag (the Boolean of `statusWith`; the return type
has no error case, so nothing is raised), and the snapshot is still the
positional zip of the names with all fetched values. -/
theorem C3_count_mismatch_soft (props : List String)
    (oracle : String → List String → List Value)
    (hmis : (Prog.run oracle (statusFetch props)).2.length ≠ props.length) :
    (Prog.run oracle (statusWith props)).2.1 = true ∧
    (Prog.run oracle (statusWith props)).2.2 =
      buildSnapshot props (Prog.run oracle (statusFetch props)).2 := by
  unfold statusWith
  rw [Prog.run_bind]
  refine ⟨?_, rfl⟩
  simp only [Prog.run, bne_iff_ne, ne_eq]
  exact fun h => hmis h.symm

theorem C3_count_mismatch_soft_witness :
    ((Prog.run emptyOracle (statusFetch t2017Properties)).2.length ≠
      t2017Properties.length) ∧
    ((Prog.run emptyOracle (statusWith t2017Properties)).2.1 = true ∧
     (Prog.run emptyOracle (statusWith t2017Properties)).2.2 =
       buildSnapshot t2017Properties
         (Prog.run emptyOracle (statusFetch t2017Properties)).2) := by
  have hval := run_statusFetch_emptyOracle t2017Properties
  have hne : (Prog.run emptyOracle (statusFetch t2017Properties)).2.length ≠
      t2017Properties.length := by
    rw [hval]; decide
  exact ⟨hne, C3_count_mismatch_soft t2017Properties emptyOracle hne⟩

/-- Claim C4: for every returned value list strictly longer than the
requested name list, the snapshot ignores the extra trailing values: it
equals the snapshot built from only the first L values, where L is the
number of requested names (Python `zip` truncates). -/
theorem C4_excess_values_ignored (props : List String) (values : List Value)
    (hlong : props.length < values.length) :
    buildSnapshot props values =
      buildSnapshot props (values.take props.length) := by
  unfold buildSnapshot
  rw [zip_take_length]

theorem C4_excess_values_ignored_witness :
    ((["power"] : List String).length <
      [Value.bool true, Value.int 3].length) ∧
    buildSnapshot ["power"] [Value.bool true, Value.int 3] =
      buildSnapshot ["power"]
        ([Value.bool true, Value.int 3].take (["power"] : List String).length) :=
  ⟨by decide,
   C4_excess_values_ignored ["power"] [Value.bool true, Value.int 3] (by decide)⟩

/-- Claim C5: encoding any member of `OperationMode`, `PtcLevel` or
`ScreenOrientation` to its wire value and decoding it back yields that
member (in particular `Favorite` round-trips through `"favourite"`),
while decoding a wire string equal to no member's wire value fails with
an error (`ValueError`/InvalidArgument, embedded as `Except.error`)
rather than returning a value. -/
theorem C5_enum_roundtrip :
    (∀ m : OperationMode, OperationMode.ofValue m.value = Except.ok m) ∧
    (∀ l : PtcLevel, PtcLevel.ofValue l.value = Except.ok l) ∧
    (∀ o : ScreenOrientation, ScreenOrientation.ofValue o.value = Except.ok o) ∧
    (∀ s : String, s ∉ OperationMode.members.map OperationMode.value →
      OperationMode.ofValue s = Except.error s) ∧
    (∀ s : String, s ∉ PtcLevel.members.map PtcLevel.value →
      PtcLevel.ofValue s = Except.error s) ∧
    (∀ s : String, s ∉ ScreenOrientation.members.map ScreenOrientation.value →
      ScreenOrientation.ofValue s = Except.error s) :=
  ⟨opMode_ofValue_value, ptcLevel_ofValue_value,
   screenOrientation_ofValue_value, opMode_ofValue_not_mem,
   ptcLevel_ofValue_not_mem, screenOrientation_ofValue_not_mem⟩

theorem C5_enum_roundtrip_witness :
    ("banana" ∉ OperationMode.members.map OperationMode.value ∧
     "banana" ∉ PtcLevel.members.map PtcLevel.value ∧
     "banana" ∉ ScreenOrientation.members.map ScreenOrientation.value) ∧
    (OperationMode.ofValue "banana" = Except.error "banana" ∧
     PtcLevel.ofValue "banana" = Except.error "banana" ∧
     ScreenOrientation.ofValue "banana" = Except.error "banana") :=
  ⟨⟨by decide, by decide, by decide⟩,
   ⟨C5_enum_roundtrip.2.2.2.1 "banana" (by decide),
    C5_enum_roundtrip.2.2.2.2.1 "banana" (by decide),
    C5_enum_roundtrip.2.2.2.2.2 "banana" (by decide)⟩⟩

/-- Claim C6: `on` issues exactly the one call `set_power ["on"]`, `off`
exactly `set_power ["off"]`, and `set_mode m` exactly `set_mode` with the
member's wire value (for `Auto`, `set_mode ["auto"]`); each returns the
transport's result unchanged. -/
theorem C6_power_mode_commands (oracle : String → List String → List Value) :
    Prog.run oracle AirFreshT2017.on =
      ([("set_power", ["on"])], oracle "set_power" ["on"]) ∧
    Prog.run oracle AirFreshT2017.off =
      ([("set_power", ["off"])], oracle "set_power" ["off"]) ∧
    (∀ m : OperationMode,
      Prog.run oracle (AirFreshT2017.set_mode m) =
        ([("set_mode", [m.value])], oracle "set_mode" [m.value])) ∧
    Prog.run oracle (AirFreshT2017.set_mode OperationMode.Auto) =
      ([("set_mode", ["auto"])], oracle "set_mode" ["auto"]) :=
  ⟨rfl, rfl, fun _ => rfl, rfl⟩

/-- Claim C7: `set_display b` issues exactly one `set_display` call with
`["on"]` when `b` is true and `["off"]` when false; `set_buzzer b`
likewise issues `set_sound`, `set_child_lock b` likewise issues
`set_child_lock`; `reset_upper_filter` issues exactly
`set_filter_reset ["efficient"]` and `reset_dust_filter` exactly
`set_filter_reset ["intermediate"]`; each returns the transport's result
unchanged. -/
theorem C7_toggle_reset_commands (oracle : String → List String → List Value) :
    (∀ b : Bool, Prog.run oracle (AirFreshT2017.set_display b) =
      ([("set_display", [if b then "on" else "off"])],
       oracle "set_display" [if b then "on" else "off"])) ∧
    (∀ b : Bool, Prog.run oracle (AirFreshT2017.set_buzzer b) =
      ([("set_sound", [if b then "on" else "off"])],
       oracle "set_sound" [if b then "on" else "off"])) ∧
    (∀ b : Bool, Prog.run oracle (AirFreshT2017.set_child_lock b) =
      ([("set_child_lock", [if b then "on" else "off"])],
       oracle "set_child_lock" [if b then "on" else "off"])) ∧
    Prog.run oracle AirFreshT2017.reset_upper_filter =
      ([("set_filter_reset", ["efficient"])],
       oracle "set_filter_reset" ["efficient"]) ∧
    Prog.run oracle AirFreshT2017.reset_dust_filter =
      ([("set_filter_reset", ["intermediate"])],
       oracle "set_filter_reset" ["intermediate"]) :=
  ⟨fun b => by cases b <;> rfl, fun b => by cases b <;> rfl,
   fun b => by cases b <;> rfl, rfl, rfl⟩

/-- Claim C8: decoding a mode argument that names no member of
`OperationMode` fails with an error before any program is produced:
`setModeChecked` returns `Except.error`, which holds no transport
program, so no transport call can be issued. -/
theorem C8_set_mode_invalid (s : String)
    (hnotmem : s ∉ OperationMode.members.map OperationMode.value) :
    setModeChecked s = Except.error s := by
  unfold setModeChecked
  rw [opMode_ofValue_not_mem s hnotmem]
  rfl

theorem C8_set_mode_invalid_witness :
    ("banana" ∉ OperationMode.members.map OperationMode.value) ∧
    setModeChecked "banana" = Except.error "banana" :=
  ⟨by decide, C8_set_mode_invalid "banana" (by decide)⟩

/-- Claim C9: the fetch loop of `status` operates on a copy of the
module-level property table (`fetchInit` models line 285's
`properties.copy()`; `fetchStep` mutates only the copy and the value
accumulator), so after the loop the shared table is unchanged, element
for element. -/
theorem C9_property_table_unchanged
    (oracle : String → List String → List Value) (table : List String) :
    (fetchRun oracle (fetchInit table)).table = table :=
  fetchRun_table oracle (fetchInit table)

/-- Claim C10: for every model string, the constructor stores a model
that is a key of `AVAILABLE_PROPERTIES` — a recognized model is kept, an
unrecognized one is silently replaced by `MODEL_AIRFRESH_T2017` — so the
property-table lookup performed by `status` is always `some`, never a
missing-key failure. -/
theorem C10_model_fallback (m : String) :
    (lookupProperties (AirFreshT2017.init m).model).isSome = true ∧
    ((AirFreshT2017.init m).status).isSome = true ∧
    ((lookupProperties m).isSome = true → (AirFreshT2017.init m).model = m) ∧
    ((lookupProperties m).isSome = false →
      (AirFreshT2017.init m).model = MODEL_AIRFRESH_T2017) := by
  by_cases h : (lookupProperties m).isSome
  · have hinit : AirFreshT2017.init m = ⟨m⟩ := by
      simp [AirFreshT2017.init, h]
    refine ⟨?_, ?_, fun _ => by rw [hinit], fun hf => ?_⟩
    · rw [hinit]
      exact h
    · rw [hinit]
      simp [AirFreshT2017.status, h]
    · rw [h] at hf
      exact absurd hf (by decide)
  · have hinit : AirFreshT2017.init m = ⟨MODEL_AIRFRESH_T2017⟩ := by
      simp [AirFreshT2017.init, h]
    refine ⟨?_, ?_, fun ht => absurd ht h, fun _ => by rw [hinit]⟩
    · rw [hinit]
      decide
    · rw [hinit]
      decide

theorem C10_model_fallback_witness :
    ((lookupProperties "foo").isSome = false) ∧
    ((lookupProperties (AirFreshT2017.init "foo").model).isSome = true ∧
     ((AirFreshT2017.init "foo").status).isSome = true ∧
     (AirFreshT2017.init "foo").model = MODEL_AIRFRESH_T2017) :=
  ⟨by decide,
   ⟨(C10_model_fallback "foo").1, (C10_model_fallback "foo").2.1,
    (C10_model_fallback "foo").2.2.2 (by decide)⟩⟩
